import Mathlib

/-!
Verification development for the jupyter-gmaps widget synchronization layer
(the JavaScript model/view code of this repository).  The JavaScript source is
shallowly embedded: each view's methods become Lean functions on explicit
record states, the browser event loop is embedded as a deterministic trace of
events, and JavaScript values that may be `undefined` become `Option`.
-/

/-- A `google.maps.LatLng`, holding a latitude and a longitude.
Coordinates are embedded as rationals. -/
structure LatLng where
  lat : ℚ
  lng : ℚ
deriving DecidableEq, Repr

/-- A `google.maps.LatLngBounds`, built from a southwest and a northeast
corner (the constructor's first and second argument, in that order). -/
structure LatLngBounds where
  sw : LatLng
  ne : LatLng
deriving DecidableEq, Repr

/- ------------------------------------------------------------------
Configuration / loader (`reloadGoogleMaps`).

The `GoogleMapsLoader` singleton of the `google-maps` npm package holds a
key, a list of libraries to load, and the loaded handle; `release()`
discards the loaded handle.  We embed the fields the repository touches. -/

/-- State of the `GoogleMapsLoader` singleton: its `KEY`, `LIBRARIES`, and a
count of `release()` calls (each call discards the loaded library handle). -/
structure LoaderState where
  key : Option String
  libraries : List String
  releaseCount : Nat
deriving DecidableEq, Repr

/-- A configuration dictionary as seen by `reloadGoogleMaps`: the
`api_key` entry is absent/`undefined` (`none`), present but `null`
(`some none`), or a string (`some (some k)`). -/
structure Configuration where
  api_key : Option (Option String)
deriving DecidableEq, Repr

/-- Embedding of `reloadGoogleMaps(configuration)`: release the handle, set
`LIBRARIES` to `["visualization"]`, and assign `KEY` only when
`configuration["api_key"]` is neither `null` nor `undefined`. -/
def reloadGoogleMaps (configuration : Configuration) (st : LoaderState) : LoaderState :=
  let st := { st with releaseCount := st.releaseCount + 1, libraries := ["visualization"] }
  match configuration.api_key with
  | some (some k) => { st with key := some k }
  | _ => st

/- ------------------------------------------------------------------
Directions layer (`DirectionsLayerView`). -/

/-- A waypoint entry `{location: new google.maps.LatLng(lat, lng)}`. -/
structure Waypoint where
  location : LatLng
deriving DecidableEq, Repr

/-- Embedding of `DirectionsLayerView.getOrigin`: `_.first(modelData)` is
`undefined` on an empty list (destructuring it throws), hence `Option`. -/
def getOrigin (modelData : List (ℚ × ℚ)) : Option LatLng :=
  modelData.head?.map (fun p => ⟨p.1, p.2⟩)

/-- Embedding of `DirectionsLayerView.getDestination`: `_.last(modelData)`. -/
def getDestination (modelData : List (ℚ × ℚ)) : Option LatLng :=
  modelData.getLast?.map (fun p => ⟨p.1, p.2⟩)

/-- Embedding of `DirectionsLayerView.getWaypoints`:
`_.initial(_.tail(modelData))` mapped into waypoint records. -/
def getWaypoints (modelData : List (ℚ × ℚ)) : List Waypoint :=
  (modelData.tail.dropLast).map (fun p => ⟨⟨p.1, p.2⟩⟩)

/-- The routing request built in `DirectionsLayerView.render`.  `travelMode`
is always `google.maps.TravelMode.DRIVING`, embedded as the string. -/
structure DirectionsRequest where
  origin : LatLng
  destination : LatLng
  waypoints : List Waypoint
  travelMode : String
deriving DecidableEq, Repr

/-- The request construction of `DirectionsLayerView.render` (lines building
`request` from `this.model.get("data")`); `none` when the destructuring of
`_.first` / `_.last` throws (empty data). -/
def buildRequest (modelData : List (ℚ × ℚ)) : Option DirectionsRequest :=
  match getOrigin modelData, getDestination modelData with
  | some o, some d => some ⟨o, d, getWaypoints modelData, "DRIVING"⟩
  | _, _ => none

/-- Host-side model state of a Directions layer. -/
structure DirectionsModelState where
  data : List (ℚ × ℚ)
  layerStatus : Option String
deriving DecidableEq, Repr

/-- View state of a `DirectionsLayerView`.  `rendererOnMap` records that the
`DirectionsRenderer` was constructed with `{map: this.mapView.map}`;
`directionsSet` records that `setDirections` was called on it;
`responseSaved` records the `this.response = this.directionsDisplay`
assignment; `touchCount` counts `this.touch()` calls (pushes to the host);
`destroyed` records that the view was torn down (`remove()`), a fact the
source's route callback never consults. -/
structure DirectionsViewState where
  model : DirectionsModelState
  rendererOnMap : Bool
  directionsSet : Bool
  responseSaved : Bool
  touchCount : Nat
  destroyed : Bool
deriving DecidableEq, Repr

/-- Embedding of the completion callback passed to `directionsService.route`
in `DirectionsLayerView.render`: set `layer_status` to the returned status,
`touch()` to push it to the host, and call `setDirections` (storing
`this.response`) exactly when the status equals
`google.maps.DirectionsStatus.OK`, i.e. the string "OK".  The body reads no
liveness information: it runs the same way on a destroyed view. -/
def routeCallback (st : DirectionsViewState) (status : String) : DirectionsViewState :=
  let st := { st with
    model := { st.model with layerStatus := some status },
    touchCount := st.touchCount + 1 }
  if status = "OK" then
    { st with responseSaved := true, directionsSet := true }
  else
    st

/-- Fresh view state produced by `DirectionsLayerView.render` before the
routing service answers: the renderer is constructed attached to the map,
no `setDirections` yet, nothing touched. -/
def directionsRender (data : List (ℚ × ℚ)) : DirectionsViewState :=
  { model := { data := data, layerStatus := none }
    rendererOnMap := true
    directionsSet := false
    responseSaved := false
    touchCount := 0
    destroyed := false }

/- ------------------------------------------------------------------
Heatmap layers (`HeatmapLayerBaseView`). -/

/-- A live `google.maps.visualization.HeatmapLayer` rendering primitive.
`objId` is the JavaScript object identity, so that "same object before and
after" is expressible; `radius` and `maxIntensity` are the two properties the
view writes with `heatmap.set`. -/
structure HeatmapPrimitive where
  objId : Nat
  radius : ℚ
  maxIntensity : ℚ
deriving DecidableEq, Repr

/-- Host-side model state of a heatmap layer: the `point_radius` and
`max_intensity` attributes. -/
structure HeatmapModelState where
  pointRadius : ℚ
  maxIntensity : ℚ
deriving DecidableEq, Repr

/-- View state of a `HeatmapLayerBaseView`.  `heatmap` is `this.heatmap`
(absent until the loader callback runs); `handlersOn` records that
`modelEvents()` registered the two `change:` subscriptions; `renderCount`
counts `render()` calls; `createdCount` counts primitive constructions (it
doubles as the next fresh `objId`); `destroyed` records view teardown, which
the source's loader callback never consults. -/
structure HeatmapViewState where
  model : HeatmapModelState
  heatmap : Option HeatmapPrimitive
  handlersOn : Bool
  renderCount : Nat
  createdCount : Nat
  destroyed : Bool
deriving DecidableEq, Repr

/-- Embedding of the `GoogleMapsLoader.load` callback inside
`HeatmapLayerBaseView.render`: construct a fresh `HeatmapLayer` primitive
seeded from the model's current attributes and store it in `this.heatmap`.
The body reads no liveness information. -/
def heatmapLoadCallback (st : HeatmapViewState) : HeatmapViewState :=
  { st with
    heatmap := some
      { objId := st.createdCount
        radius := st.model.pointRadius
        maxIntensity := st.model.maxIntensity }
    createdCount := st.createdCount + 1 }

/-- Embedding of `HeatmapLayerBaseView.render`: register the model-event
subscriptions, then hand the loader callback to `GoogleMapsLoader.load`.
The `google-maps` loader invokes the callback synchronously when the library
is already loaded, which is the case whenever a layer view renders (layer
views are only created from inside the map view's own load callback); the
callback is therefore applied directly. -/
def heatmapRender (st : HeatmapViewState) : HeatmapViewState :=
  heatmapLoadCallback { st with handlersOn := true, renderCount := st.renderCount + 1 }

/-- Embedding of `HeatmapLayerBaseView.updateRadius`:
`this.heatmap.set('radius', this.model.get('point_radius'))` — an in-place
property write on the existing primitive. -/
def updateRadius (st : HeatmapViewState) : HeatmapViewState :=
  { st with heatmap := st.heatmap.map (fun h => { h with radius := st.model.pointRadius }) }

/-- Embedding of `HeatmapLayerBaseView.updateMaxIntensity`:
`this.heatmap.set('maxIntensity', this.model.get('max_intensity'))`. -/
def updateMaxIntensity (st : HeatmapViewState) : HeatmapViewState :=
  { st with heatmap := st.heatmap.map (fun h => { h with maxIntensity := st.model.maxIntensity }) }

/-- A `change:point_radius` on the model: the attribute is written and, when
the subscriptions of `modelEvents()` are registered, the single registered
handler `updateRadius` fires once. -/
def setPointRadius (st : HeatmapViewState) (v : ℚ) : HeatmapViewState :=
  let st := { st with model := { st.model with pointRadius := v } }
  if st.handlersOn then updateRadius st else st

/-- A `change:max_intensity` on the model, dispatching `updateMaxIntensity`
once when the subscription is registered. -/
def setMaxIntensity (st : HeatmapViewState) (v : ℚ) : HeatmapViewState :=
  let st := { st with model := { st.model with maxIntensity := v } }
  if st.handlersOn then updateMaxIntensity st else st

/- ------------------------------------------------------------------
Map view (`PlainmapView`) bounds handling and model defaults. -/

/-- Host-side state of the map model that the bounds machinery reads:
`data_bounds` is a `[[latBL, lngBL], [latTR, lngTR]]` pair of pairs. -/
structure PlainmapBoundsModel where
  dataBounds : (ℚ × ℚ) × (ℚ × ℚ)
deriving DecidableEq, Repr

/-- The part of `PlainmapView`'s state that the bounds machinery touches:
the model, whether `modelEvents()` registered the `change:data_bounds`
subscription (done in `render`), and the ordered log of `map.fitBounds`
calls issued to the map surface. -/
structure PlainmapViewState where
  model : PlainmapBoundsModel
  boundsHandlerOn : Bool
  fitBoundsCalls : List LatLngBounds
deriving DecidableEq, Repr

/-- Embedding of `PlainmapView.updateBounds`: destructure
`this.model.get("data_bounds")` into bottom-left and top-right pairs, build a
`LatLngBounds` with the first pair as southwest corner and the second as
northeast corner, and issue one `fitBounds` call. -/
def updateBounds (st : PlainmapViewState) : PlainmapViewState :=
  let bl := st.model.dataBounds.1
  let tr := st.model.dataBounds.2
  { st with fitBoundsCalls := st.fitBoundsCalls ++ [⟨⟨bl.1, bl.2⟩, ⟨tr.1, tr.2⟩⟩] }

/-- A `change:data_bounds` on the map model: the attribute is written and,
when the subscription registered by `PlainmapView.modelEvents` is on, the
single registered handler `updateBounds` fires once. -/
def setDataBounds (st : PlainmapViewState) (db : (ℚ × ℚ) × (ℚ × ℚ)) : PlainmapViewState :=
  let st := { st with model := { st.model with dataBounds := db } }
  if st.boundsHandlerOn then updateBounds st else st

/-- The attribute dictionary of `PlainmapModel.defaults` (the fields added
on top of the widget framework's `DOMWidgetModel` defaults). -/
structure PlainmapModelAttrs where
  viewName : String
  modelName : String
  viewModule : String
  modelModule : String
  width : String
  height : String
deriving DecidableEq, Repr

/-- Embedding of `PlainmapModel.defaults`: the attribute values a freshly
constructed map model carries. -/
def plainmapDefaults : PlainmapModelAttrs :=
  { viewName := "PlainmapView"
    modelName := "PlainmapModel"
    viewModule := "jupyter-gmaps"
    modelModule := "jupyter-gmaps"
    width := "600px"
    height := "400px" }

/-- The display surface's style fields that `PlainmapView.render` writes. -/
structure ElStyle where
  width : String
  height : String
deriving DecidableEq, Repr

/-- Embedding of the first two statements of `PlainmapView.render`:
`this.el.style["width"] = this.model.get("width")` and likewise for
`height`. -/
def plainmapApplyStyle (m : PlainmapModelAttrs) (el : ElStyle) : ElStyle :=
  { el with width := m.width, height := m.height }

/- ------------------------------------------------------------------
Layer-list reconciliation. -/

/-- Modelled from the spec: the layer-list synchronizer's reconciliation
routine (`widgets.ViewList.update`, framework code not under `src/`), per the
contract "given the previous rendered set and the current `layers` sequence,
compute the minimal add/remove delta (construct-by-reference, destroy on
removal), preserving relative order".  Views are identified with the model
references they were constructed from; the result lists the rendered
sequence after the pass, the references whose views the pass constructed,
and those whose views it destroyed. -/
def reconcile [DecidableEq α] (rendered current : List α) :
    List α × List α × List α :=
  (current,
   current.filter (fun m => ¬ m ∈ rendered),
   rendered.filter (fun m => ¬ m ∈ current))

/- ------------------------------------------------------------------
Event-loop trace of a map render (`PlainmapView.render` /
`PlainmapView.addLayerModel`).

The JavaScript execution model embedded here:
  * `this.layerViews.update(this.model.get("layers"))` runs inside the map
    view's `GoogleMapsLoader.load` callback, after the map is constructed
    and the initial `updateBounds` call; it synchronously starts one
    view-creation promise chain per layer model, in sequence order, each
    chain symmetric to the others.
  * A promise `.then` callback runs strictly after the synchronous code that
    resolved the promise, and the microtask queue is FIFO, so the three-step
    chains proceed in lockstep: first every layer's view construction and
    `render()` (in sequence order), then every layer's
    `.then((childView) => childView.addToMapView(this))` (in the same
    order).
  * `GoogleMapsLoader.load` invokes its callback synchronously once the
    library is loaded; it is loaded here, since the whole update runs inside
    the map's own load callback.  A heatmap view's `render()` therefore
    creates its primitive before `render()` returns.
  * A Directions view's `render()` constructs its `DirectionsRenderer` with
    `{map: this.mapView.map}`, attaching it to the map surface during
    `render()` itself; its `addToMapView` is an empty no-op.  A heatmap
    view attaches only in `addToMapView` (`this.heatmap.setMap(...)`). -/

/-- The two concrete layer kinds that can appear in `layers` (both heatmap
variants behave identically here). -/
inductive LayerKind
  | heatmap
  | directions
deriving DecidableEq, Repr

/-- Observable events of a map-render trace.  Indices refer to positions in
the `layers` sequence. -/
inductive Ev
  | mapCreated
  | fitBoundsCalled
  | renderCalled (i : Nat)
  | heatmapCreated (i : Nat)
  | addToMapViewCalled (i : Nat)
  | attached (i : Nat)
deriving DecidableEq, Repr

/-- Events of layer `i`'s view construction and `render()` call (the first
phase of its `create_child_view` chain). -/
def createRenderEvents (i : Nat) (k : LayerKind) : List Ev :=
  match k with
  | .heatmap => [.renderCalled i, .heatmapCreated i]
  | .directions => [.renderCalled i, .attached i]

/-- Events of layer `i`'s `.then` continuation in `addLayerModel`: the
`addToMapView` call, which attaches a heatmap's primitive and is a no-op for
Directions. -/
def attachEvents (i : Nat) (k : LayerKind) : List Ev :=
  match k with
  | .heatmap => [.addToMapViewCalled i, .attached i]
  | .directions => [.addToMapViewCalled i]

/-- First phase of the reconciliation pass: each layer's construction and
`render()`, in sequence order, indices starting at `n`. -/
def renderPhase : Nat → List LayerKind → List Ev
  | _, [] => []
  | n, k :: rest => createRenderEvents n k ++ renderPhase (n + 1) rest

/-- Second phase: each layer's `addToMapView` continuation, in the same
order. -/
def attachPhase : Nat → List LayerKind → List Ev
  | _, [] => []
  | n, k :: rest => attachEvents n k ++ attachPhase (n + 1) rest

/-- The deterministic event trace of `PlainmapView.render`'s load callback
on a given `layers` sequence: map construction, the initial bounds fit, then
the two phases of the layer pass. -/
def mapRenderTrace (layers : List LayerKind) : List Ev :=
  [Ev.mapCreated, Ev.fitBoundsCalled] ++ renderPhase 0 layers ++ attachPhase 0 layers

/-- The order in which rendering primitives reach the map surface: the
sequence-position indices of `attached` events, in trace order. -/
def attachOrder (t : List Ev) : List Nat :=
  t.filterMap (fun e => match e with | .attached i => some i | _ => none)

/-- Indices of the Directions layers of a sequence, in order, starting
at `n`. -/
def directionsIndices : Nat → List LayerKind → List Nat
  | _, [] => []
  | n, .directions :: rest => n :: directionsIndices (n + 1) rest
  | n, .heatmap :: rest => directionsIndices (n + 1) rest

/-- Indices of the heatmap layers of a sequence, in order, starting
at `n`. -/
def heatmapIndices : Nat → List LayerKind → List Nat
  | _, [] => []
  | n, .heatmap :: rest => n :: heatmapIndices (n + 1) rest
  | n, .directions :: rest => heatmapIndices (n + 1) rest

/-- The z-order contract as the claim states it: whenever layer `i` precedes
layer `j` in the sequence, `i`'s primitive is attached before `j`'s
(both are attached, and `i` comes first in the attachment order). -/
def zOrderPreserved (layers : List LayerKind) : Bool :=
  let ord := attachOrder (mapRenderTrace layers)
  (List.range layers.length).all (fun i =>
    (List.range layers.length).all (fun j =>
      !(decide (i < j)) || decide (ord.indexOf i < ord.indexOf j)))

/- ==================================================================
Theorems. -/

/-- C7: every `reloadGoogleMaps` call releases the external library handle
and sets the loaded-libraries list to exactly `["visualization"]`; the
loader's key is assigned from the configuration exactly when the `api_key`
entry is neither null nor undefined, and is otherwise (in particular when
`api_key` is absent) left unchanged. -/
theorem c7_reloadGoogleMaps_configures_loader (cfg : Configuration) (st : LoaderState) :
    (reloadGoogleMaps cfg st).releaseCount = st.releaseCount + 1 ∧
    (reloadGoogleMaps cfg st).libraries = ["visualization"] ∧
    (reloadGoogleMaps cfg st).key =
      (match cfg.api_key with
       | some (some k) => some k
       | _ => st.key) := by
  rcases cfg with ⟨(_ | (_ | k))⟩ <;> simp [reloadGoogleMaps]

/-- C9: a freshly constructed map model defaults to width "600px" and height
"400px", and `PlainmapView.render` writes the model's width and height into
the display surface's style. -/
theorem c9_plainmap_defaults_and_style :
    plainmapDefaults.width = "600px" ∧ plainmapDefaults.height = "400px" ∧
    ∀ (m : PlainmapModelAttrs) (el : ElStyle),
      (plainmapApplyStyle m el).width = m.width ∧
      (plainmapApplyStyle m el).height = m.height :=
  ⟨rfl, rfl, fun _ _ => ⟨rfl, rfl⟩⟩

/-- C1: when the routing service completes with status `s`, the route
callback writes `s` into the model's `layer_status` and pushes it to the
host (one `touch`), and `setDirections` attaches the route to the renderer
if and only if `s = "OK"`; in particular for `s = "ZERO_RESULTS"` the status
is recorded and no route is attached. -/
theorem c1_directions_status_roundtrip (st : DirectionsViewState) (s : String)
    (hfresh : st.directionsSet = false) :
    ((routeCallback st s).model.layerStatus = some s) ∧
    ((routeCallback st s).touchCount = st.touchCount + 1) ∧
    ((routeCallback st s).directionsSet = true ↔ s = "OK") := by
  by_cases h : s = "OK" <;> simp [routeCallback, h, hfresh]

/-- C1 witness: the freshly rendered view receiving "ZERO_RESULTS" records
the status, pushes it, and attaches no route. -/
theorem c1_directions_status_roundtrip_witness :
    (directionsRender [(0, 0), (1, 1)]).directionsSet = false ∧
    (((routeCallback (directionsRender [(0, 0), (1, 1)]) "ZERO_RESULTS").model.layerStatus
        = some "ZERO_RESULTS") ∧
     ((routeCallback (directionsRender [(0, 0), (1, 1)]) "ZERO_RESULTS").touchCount
        = (directionsRender [(0, 0), (1, 1)]).touchCount + 1) ∧
     ((routeCallback (directionsRender [(0, 0), (1, 1)]) "ZERO_RESULTS").directionsSet = true
        ↔ "ZERO_RESULTS" = "OK")) :=
  ⟨rfl, c1_directions_status_roundtrip (directionsRender [(0, 0), (1, 1)]) "ZERO_RESULTS" rfl⟩

/-- C8: the source's completion handlers consult no liveness state, contrary
to the spec's cancellation-equivalent requirement: the route callback run on
a destroyed Directions view still writes `layer_status`, touches the model
and attaches the route, and the heatmap load callback run on a destroyed
view still writes `this.heatmap`. -/
theorem c8_handlers_mutate_destroyed_views :
    ({ directionsRender [(0, 0), (1, 1)] with destroyed := true } : DirectionsViewState).destroyed
      = true ∧
    (routeCallback { directionsRender [(0, 0), (1, 1)] with destroyed := true }
        "OK").model.layerStatus = some "OK" ∧
    (routeCallback { directionsRender [(0, 0), (1, 1)] with destroyed := true }
        "OK").touchCount = 1 ∧
    (routeCallback { directionsRender [(0, 0), (1, 1)] with destroyed := true }
        "OK").directionsSet = true ∧
    (heatmapLoadCallback
        { model := ⟨3, 5⟩, heatmap := none, handlersOn := true,
          renderCount := 1, createdCount := 0, destroyed := true }).heatmap
      = some ⟨0, 3, 5⟩ := by
  refine ⟨rfl, ?_, ?_, ?_, rfl⟩ <;> simp [routeCallback, directionsRender]

/-- C6: on a map view whose `change:data_bounds` subscription is registered
(done in `render`), a single change of `data_bounds` issues exactly one
`fitBounds` call, whose bounds take the first pair of the new value as
southwest corner and the second pair as northeast corner. -/
theorem c6_data_bounds_change_single_refit (st : PlainmapViewState)
    (db : (ℚ × ℚ) × (ℚ × ℚ)) (h : st.boundsHandlerOn = true) :
    (setDataBounds st db).fitBoundsCalls =
      st.fitBoundsCalls ++ [⟨⟨db.1.1, db.1.2⟩, ⟨db.2.1, db.2.2⟩⟩] := by
  simp [setDataBounds, updateBounds, h]

/-- C6 witness: setting `data_bounds` to `[[51.4, -0.2], [51.7, 0.2]]` on a
rendered view appends the one matching `fitBounds` call. -/
theorem c6_data_bounds_change_single_refit_witness :
    ({ model := ⟨((0, 0), (0, 0))⟩, boundsHandlerOn := true, fitBoundsCalls := [] }
        : PlainmapViewState).boundsHandlerOn = true ∧
    (setDataBounds
        { model := ⟨((0, 0), (0, 0))⟩, boundsHandlerOn := true, fitBoundsCalls := [] }
        ((51.4, -0.2), (51.7, 0.2))).fitBoundsCalls =
      ([] : List LatLngBounds) ++ [⟨⟨51.4, -0.2⟩, ⟨51.7, 0.2⟩⟩] :=
  ⟨rfl, c6_data_bounds_change_single_refit
    { model := ⟨((0, 0), (0, 0))⟩, boundsHandlerOn := true, fitBoundsCalls := [] }
    ((51.4, -0.2), (51.7, 0.2)) rfl⟩

/-- C4: on a rendered heatmap view (live primitive `h`, subscriptions on),
changing `point_radius` or `max_intensity` updates the corresponding
property of the primitive in place: the resulting primitive is `h` with only
that property changed (same `objId`, hence the same object), the view is not
destroyed, and neither a re-render nor a new primitive construction
occurs. -/
theorem c4_heatmap_partial_update (st : HeatmapViewState) (h : HeatmapPrimitive)
    (v w : ℚ) (hprim : st.heatmap = some h) (hOn : st.handlersOn = true) :
    ((setPointRadius st v).heatmap = some { h with radius := v }) ∧
    ((setPointRadius st v).destroyed = st.destroyed ∧
     (setPointRadius st v).renderCount = st.renderCount ∧
     (setPointRadius st v).createdCount = st.createdCount) ∧
    ((setMaxIntensity st w).heatmap = some { h with maxIntensity := w }) ∧
    ((setMaxIntensity st w).destroyed = st.destroyed ∧
     (setMaxIntensity st w).renderCount = st.renderCount ∧
     (setMaxIntensity st w).createdCount = st.createdCount) := by
  simp [setPointRadius, setMaxIntensity, updateRadius, updateMaxIntensity, hprim, hOn]

/-- C4 witness: on the state produced by `render` (primitive `objId 0`,
radius 3, maxIntensity 5), changing the radius to 7 and the intensity to 9
rewrites only the respective property of the same primitive. -/
theorem c4_heatmap_partial_update_witness :
    (heatmapRender ⟨⟨3, 5⟩, none, false, 0, 0, false⟩).heatmap
      = some ⟨0, 3, 5⟩ ∧
    (heatmapRender ⟨⟨3, 5⟩, none, false, 0, 0, false⟩).handlersOn = true ∧
    (((setPointRadius (heatmapRender ⟨⟨3, 5⟩, none, false, 0, 0, false⟩) 7).heatmap
        = some { (⟨0, 3, 5⟩ : HeatmapPrimitive) with radius := 7 }) ∧
     ((setMaxIntensity (heatmapRender ⟨⟨3, 5⟩, none, false, 0, 0, false⟩) 9).heatmap
        = some { (⟨0, 3, 5⟩ : HeatmapPrimitive) with maxIntensity := 9 })) :=
  ⟨rfl, rfl,
    (c4_heatmap_partial_update (heatmapRender ⟨⟨3, 5⟩, none, false, 0, 0, false⟩)
      ⟨0, 3, 5⟩ 7 9 rfl rfl).1,
    (c4_heatmap_partial_update (heatmapRender ⟨⟨3, 5⟩, none, false, 0, 0, false⟩)
      ⟨0, 3, 5⟩ 7 9 rfl rfl).2.2.1⟩

/-- C5: reconciling a second time with an unchanged `layers` sequence is a
no-op: the rendered sequence is unchanged and the second pass constructs no
view and destroys none. -/
theorem c5_reconcile_idempotent {α : Type} [DecidableEq α]
    (rendered current : List α) :
    (reconcile (reconcile rendered current).1 current).1 = (reconcile rendered current).1 ∧
    (reconcile (reconcile rendered current).1 current).2.1 = [] ∧
    (reconcile (reconcile rendered current).1 current).2.2 = [] := by
  refine ⟨rfl, ?_, ?_⟩ <;>
    · simp only [reconcile, List.filter_eq_nil_iff]
      intro a ha
      simp [ha]

/-- C10: the routing request of `DirectionsLayerView.render` takes the first
element of `data` as origin, the last as destination, and the intermediate
elements, in order, as waypoints, so that origin, waypoints and destination
together partition `data` (when it has at least two elements); for fewer
than two elements no well-formed request exists: on the empty list the
request construction itself fails (`_.first`/`_.last` are `undefined` and
the destructuring throws), and on a singleton `[p]` a request is constructed
with origin = destination = `p` and no waypoints, but its origin, waypoints
and destination do not partition the data (they spell `[p, p]`, not
`[p]`). -/
theorem c10_directions_request_partitions_data (d : List (ℚ × ℚ))
    (hlen : 2 ≤ d.length) :
    (∃ o dst : ℚ × ℚ,
      d.head? = some o ∧
      d.getLast? = some dst ∧
      getOrigin d = some ⟨o.1, o.2⟩ ∧
      getDestination d = some ⟨dst.1, dst.2⟩ ∧
      getWaypoints d = (d.tail.dropLast).map (fun p => ⟨⟨p.1, p.2⟩⟩) ∧
      d = o :: (d.tail.dropLast ++ [dst])) ∧
    buildRequest ([] : List (ℚ × ℚ)) = none ∧
    ∀ p : ℚ × ℚ,
      ([p] : List (ℚ × ℚ)).head? = some p ∧
      ([p] : List (ℚ × ℚ)).getLast? = some p ∧
      getOrigin [p] = some ⟨p.1, p.2⟩ ∧
      getDestination [p] = some ⟨p.1, p.2⟩ ∧
      getWaypoints [p] = [] ∧
      buildRequest [p] = some ⟨⟨p.1, p.2⟩, ⟨p.1, p.2⟩, [], "DRIVING"⟩ ∧
      p :: (([p] : List (ℚ × ℚ)).tail.dropLast ++ [p]) ≠ [p] := by
  refine ⟨?_, rfl, ?_⟩
  · match d, hlen with
    | a :: b :: rest, _ =>
      have hne : (b :: rest : List (ℚ × ℚ)) ≠ [] := by simp
      refine ⟨a, (b :: rest).getLast hne, rfl, ?_, rfl, ?_, rfl, ?_⟩
      · simp [List.getLast?_eq_getLast _ hne]
      · simp [getDestination, List.getLast?_eq_getLast _ hne]
      · simp [List.dropLast_append_getLast hne]
  · intro p
    refine ⟨rfl, rfl, rfl, rfl, rfl, rfl, ?_⟩
    simp

/-- C10 witness: for the three-point data list the request partitions the
list, the empty list yields no request, and the singleton `[(1, 2)]` yields
a request with origin = destination and no waypoints whose components do not
partition the data. -/
theorem c10_directions_request_partitions_data_witness :
    2 ≤ ([((1 : ℚ), (2 : ℚ)), (3, 4), (5, 6)]).length ∧
    (∃ o dst : ℚ × ℚ,
      ([((1 : ℚ), (2 : ℚ)), (3, 4), (5, 6)]).head? = some o ∧
      ([((1 : ℚ), (2 : ℚ)), (3, 4), (5, 6)]).getLast? = some dst ∧
      getOrigin [((1 : ℚ), (2 : ℚ)), (3, 4), (5, 6)] = some ⟨o.1, o.2⟩ ∧
      getDestination [((1 : ℚ), (2 : ℚ)), (3, 4), (5, 6)] = some ⟨dst.1, dst.2⟩ ∧
      getWaypoints [((1 : ℚ), (2 : ℚ)), (3, 4), (5, 6)]
        = (([((1 : ℚ), (2 : ℚ)), (3, 4), (5, 6)]).tail.dropLast).map (fun p => ⟨⟨p.1, p.2⟩⟩) ∧
      [((1 : ℚ), (2 : ℚ)), (3, 4), (5, 6)]
        = o :: (([((1 : ℚ), (2 : ℚ)), (3, 4), (5, 6)]).tail.dropLast ++ [dst])) ∧
    buildRequest ([] : List (ℚ × ℚ)) = none ∧
    (([((1 : ℚ), (2 : ℚ))] : List (ℚ × ℚ)).head? = some ((1 : ℚ), (2 : ℚ)) ∧
     ([((1 : ℚ), (2 : ℚ))] : List (ℚ × ℚ)).getLast? = some ((1 : ℚ), (2 : ℚ)) ∧
     getOrigin [((1 : ℚ), (2 : ℚ))] = some ⟨1, 2⟩ ∧
     getDestination [((1 : ℚ), (2 : ℚ))] = some ⟨1, 2⟩ ∧
     getWaypoints [((1 : ℚ), (2 : ℚ))] = [] ∧
     buildRequest [((1 : ℚ), (2 : ℚ))] = some ⟨⟨1, 2⟩, ⟨1, 2⟩, [], "DRIVING"⟩ ∧
     ((1 : ℚ), (2 : ℚ)) :: (([((1 : ℚ), (2 : ℚ))] : List (ℚ × ℚ)).tail.dropLast
        ++ [((1 : ℚ), (2 : ℚ))]) ≠ [((1 : ℚ), (2 : ℚ))]) :=
  ⟨by decide,
   (c10_directions_request_partitions_data [((1 : ℚ), (2 : ℚ)), (3, 4), (5, 6)]
     (by decide)).1,
   (c10_directions_request_partitions_data [((1 : ℚ), (2 : ℚ)), (3, 4), (5, 6)]
     (by decide)).2.1,
   (c10_directions_request_partitions_data [((1 : ℚ), (2 : ℚ)), (3, 4), (5, 6)]
     (by decide)).2.2 ((1 : ℚ), (2 : ℚ))⟩

/-- Helper: no `addToMapView` call occurs during the render phase (the
`.then` continuations of `addLayerModel` all run after every layer's
`render()`). -/
theorem addToMapViewCalled_not_mem_renderPhase (i : Nat) :
    ∀ (n : Nat) (l : List LayerKind), Ev.addToMapViewCalled i ∉ renderPhase n l := by
  intro n l
  induction l generalizing n with
  | nil => simp [renderPhase]
  | cons k rest ih =>
    cases k <;> simp [renderPhase, createRenderEvents] <;> exact ih _

/-- Helper: layer `i`'s `render()` call occurs in the render phase. -/
theorem renderCalled_mem_renderPhase :
    ∀ (l : List LayerKind) (n i : Nat) (k : LayerKind), l.get? i = some k →
      Ev.renderCalled (n + i) ∈ renderPhase n l := by
  intro l
  induction l with
  | nil => intro n i k h; simp at h
  | cons k0 rest ih =>
    intro n i k h
    cases i with
    | zero =>
      show Ev.renderCalled (n + 0) ∈ createRenderEvents n k0 ++ renderPhase (n + 1) rest
      cases k0 <;> simp [createRenderEvents]
    | succ j =>
      have hj : rest.get? j = some k := h
      have hmem : Ev.renderCalled ((n + 1) + j) ∈ renderPhase (n + 1) rest := ih (n + 1) j k hj
      show Ev.renderCalled (n + (j + 1)) ∈ createRenderEvents n k0 ++ renderPhase (n + 1) rest
      rw [show n + (j + 1) = (n + 1) + j from by omega]
      exact List.mem_append_right _ hmem

/-- Helper: a heatmap layer's primitive is created during the render phase
(the loader invokes the callback synchronously, the library being already
loaded). -/
theorem heatmapCreated_mem_renderPhase :
    ∀ (l : List LayerKind) (n i : Nat), l.get? i = some LayerKind.heatmap →
      Ev.heatmapCreated (n + i) ∈ renderPhase n l := by
  intro l
  induction l with
  | nil => intro n i h; simp at h
  | cons k0 rest ih =>
    intro n i h
    cases i with
    | zero =>
      have hk0 : k0 = LayerKind.heatmap := by cases k0 <;> simp_all
      subst hk0
      show Ev.heatmapCreated (n + 0) ∈
        createRenderEvents n LayerKind.heatmap ++ renderPhase (n + 1) rest
      simp [createRenderEvents]
    | succ j =>
      have hj : rest.get? j = some LayerKind.heatmap := h
      have hmem := ih (n + 1) j hj
      show Ev.heatmapCreated (n + (j + 1)) ∈ createRenderEvents n k0 ++ renderPhase (n + 1) rest
      rw [show n + (j + 1) = (n + 1) + j from by omega]
      exact List.mem_append_right _ hmem

/-- C2: in the trace of a map render, whenever `addToMapView` is called on
layer `i`, that layer's `render()` has already run, and — when the layer is
a heatmap — its rendering primitive has already been created: `addToMapView`
is never invoked before the primitive exists. -/
theorem c2_addToMapView_after_render (layers : List LayerKind) (i : Nat) (k : LayerKind)
    (hk : layers.get? i = some k)
    (t1 t2 : List Ev)
    (hsplit : mapRenderTrace layers = t1 ++ Ev.addToMapViewCalled i :: t2) :
    Ev.renderCalled i ∈ t1 ∧ (k = LayerKind.heatmap → Ev.heatmapCreated i ∈ t1) := by
  have hA : mapRenderTrace layers
      = ([Ev.mapCreated, Ev.fitBoundsCalled] ++ renderPhase 0 layers)
          ++ attachPhase 0 layers := by
    simp [mapRenderTrace]
  have hnotinA :
      Ev.addToMapViewCalled i ∉ [Ev.mapCreated, Ev.fitBoundsCalled] ++ renderPhase 0 layers := by
    intro hmem
    rcases List.mem_append.mp hmem with hmem | hmem
    · simp at hmem
    · exact addToMapViewCalled_not_mem_renderPhase i 0 layers hmem
  have hrA : Ev.renderCalled i ∈ [Ev.mapCreated, Ev.fitBoundsCalled] ++ renderPhase 0 layers :=
    List.mem_append_right _ (by simpa using renderCalled_mem_renderPhase layers 0 i k hk)
  have hhA : k = LayerKind.heatmap →
      Ev.heatmapCreated i ∈ [Ev.mapCreated, Ev.fitBoundsCalled] ++ renderPhase 0 layers := by
    intro hkk
    subst hkk
    exact List.mem_append_right _ (by simpa using heatmapCreated_mem_renderPhase layers 0 i hk)
  rw [hA] at hsplit
  rcases List.append_eq_append_iff.mp hsplit with ⟨a', ha1, _⟩ | ⟨c', hc1, hc2⟩
  · rw [ha1]
    exact ⟨List.mem_append_left _ hrA, fun hkk => List.mem_append_left _ (hhA hkk)⟩
  · cases c' with
    | nil =>
      rw [List.append_nil] at hc1
      rw [← hc1]
      exact ⟨hrA, hhA⟩
    | cons e' c'' =>
      have he' : e' = Ev.addToMapViewCalled i := by
        have := (List.cons.injEq _ _ _ _).mp hc2.symm
        exact this.1
      exact absurd (hc1 ▸ List.mem_append_right t1 (he' ▸ List.mem_cons_self e' c''))
        hnotinA

/-- C2 witness: for a single heatmap layer, the trace splits at its
`addToMapView` call with both the `render()` call and the primitive creation
in the preceding segment. -/
theorem c2_addToMapView_after_render_witness :
    [LayerKind.heatmap].get? 0 = some LayerKind.heatmap ∧
    (Ev.renderCalled 0 ∈
        [Ev.mapCreated, Ev.fitBoundsCalled, Ev.renderCalled 0, Ev.heatmapCreated 0] ∧
     (LayerKind.heatmap = LayerKind.heatmap →
        Ev.heatmapCreated 0 ∈
          [Ev.mapCreated, Ev.fitBoundsCalled, Ev.renderCalled 0, Ev.heatmapCreated 0])) :=
  ⟨rfl, c2_addToMapView_after_render [LayerKind.heatmap] 0 LayerKind.heatmap rfl
    [Ev.mapCreated, Ev.fitBoundsCalled, Ev.renderCalled 0, Ev.heatmapCreated 0]
    [Ev.attached 0] (by decide)⟩

/-- Helper: `attachOrder` distributes over trace concatenation. -/
theorem attachOrder_append (s t : List Ev) :
    attachOrder (s ++ t) = attachOrder s ++ attachOrder t := by
  simp [attachOrder]

/-- Helper: during the render phase, exactly the Directions layers attach
(their renderer is constructed with `{map: ...}`), in sequence order. -/
theorem attachOrder_renderPhase :
    ∀ (l : List LayerKind) (n : Nat),
      attachOrder (renderPhase n l) = directionsIndices n l := by
  intro l
  induction l with
  | nil => intro n; rfl
  | cons k rest ih =>
    intro n
    cases k
    · show attachOrder (createRenderEvents n LayerKind.heatmap ++ renderPhase (n + 1) rest) = _
      rw [attachOrder_append, ih]
      rfl
    · show attachOrder (createRenderEvents n LayerKind.directions ++ renderPhase (n + 1) rest) = _
      rw [attachOrder_append, ih]
      rfl

/-- Helper: during the attach phase, exactly the heatmap layers attach
(`addToMapView` is a no-op for Directions), in sequence order. -/
theorem attachOrder_attachPhase :
    ∀ (l : List LayerKind) (n : Nat),
      attachOrder (attachPhase n l) = heatmapIndices n l := by
  intro l
  induction l with
  | nil => intro n; rfl
  | cons k rest ih =>
    intro n
    cases k
    · show attachOrder (attachEvents n LayerKind.heatmap ++ attachPhase (n + 1) rest) = _
      rw [attachOrder_append, ih]
      rfl
    · show attachOrder (attachEvents n LayerKind.directions ++ attachPhase (n + 1) rest) = _
      rw [attachOrder_append, ih]
      rfl

/-- C3 counterexample: for the 3-layer sequence `[heatmap, directions,
heatmap]`, the z-order contract fails on the code's trace — the Directions
layer at position 1 attaches first (during its `render()`), so the
attachment order is `[1, 0, 2]`, not `[0, 1, 2]`. -/
theorem c3_zorder_counterexample :
    zOrderPreserved [LayerKind.heatmap, LayerKind.directions, LayerKind.heatmap] = false ∧
    attachOrder
        (mapRenderTrace [LayerKind.heatmap, LayerKind.directions, LayerKind.heatmap])
      = [1, 0, 2] := by
  decide

/-- C3 amended: the attachment order is all Directions layers in sequence
order followed by all heatmap layers in sequence order — relative order is
preserved within each kind, but every Directions layer attaches before
every heatmap layer, because a Directions renderer attaches during
`render()` while a heatmap attaches only in its deferred `addToMapView`
continuation. -/
theorem c3_amended_attach_order (layers : List LayerKind) :
    attachOrder (mapRenderTrace layers) =
      directionsIndices 0 layers ++ heatmapIndices 0 layers := by
  show attachOrder
      ([Ev.mapCreated, Ev.fitBoundsCalled] ++ renderPhase 0 layers ++ attachPhase 0 layers) = _
  rw [attachOrder_append, attachOrder_append, attachOrder_renderPhase, attachOrder_attachPhase]
  rfl
